import Mathlib

/-!
Verification of the text-2-sql-agent evaluation engine.

Shallow embedding of the repository's core components:
- `src/evaluation/result_comparator.py` (`DefaultResultComparator`)
- `src/evaluation/scorer.py` (`DefaultScorer`) and
  `src/evaluation/data_structures.py` (`MultiDimensionalScore`)
- `src/agentx_a2a/green_agent/error_metrics.py` (`SQLErrorClassifier`)
- `src/agentx_a2a/resilience.py` (`CircuitBreaker`, `ResilientHTTPClient`)
- `src/a2a/green_agent/artifact_builder.py` (`ArtifactBuilder`)
- `src/agentx_a2a/green_agent/sql_benchmark_agent.py`
  (`SQLBenchmarkGreenAgent.handle_assessment`)

Python floats are modelled as exact rationals (ℚ); Python dicts of rows as
association lists with unique keys; `time.monotonic()` as an explicit ℚ clock
value passed to each breaker operation.
-/

/-- Python's `round(x, 4)`: rounding to four decimal places
(tie behaviour is irrelevant to every statement below). -/
def round4 (x : ℚ) : ℚ := (round (x * 10000) : ℤ) / 10000

/-- Membership of `pat` as a prefix of a character list
(helper for Python's `in` substring test). -/
def charsLeading : List Char → List Char → Bool
  | [], _ => true
  | _ :: _, [] => false
  | c :: cs, d :: ds => c == d && charsLeading cs ds

/-- Python's `pat in hay` substring containment on character lists. -/
def charsContains (pat : List Char) : List Char → Bool
  | [] => pat.isEmpty
  | d :: ds => charsLeading pat (d :: ds) || charsContains pat ds

/-- Python's `pat in hay` for strings. -/
def strContains (hay pat : String) : Bool :=
  charsContains pat.toList hay.toList

/-! ## Result comparator (`src/evaluation/result_comparator.py`) -/

/-- A SQL cell value as handled by `DefaultResultComparator._values_match`:
`None`, a (non-NaN) number, the float NaN, a string, or any other Python
value compared by structural equality (represented by a tag). -/
inductive Value where
  | null : Value
  | num (q : ℚ) : Value
  | nan : Value
  | str (s : String) : Value
  | other (tag : String) : Value
deriving DecidableEq, Repr

/-- A result row: a Python dict column → value (association list with
unique keys). -/
abbrev Row := List (String × Value)

/-- `row.get(col)`: Python `dict.get` returns `None` for a missing key,
which `_values_match` treats exactly like a stored `None`. -/
def rowGet (r : Row) (c : String) : Value :=
  match r.lookup c with
  | some v => v
  | none => Value.null

/-- The key list of a row (`row.keys()`); with unique keys this is the
Python key set. -/
def rowKeys (r : Row) : List String := r.map Prod.fst

/-- Configuration of `DefaultResultComparator.__init__`. -/
structure ComparatorConfig where
  numeric_tolerance : ℚ := 1 / 1000000
  ignore_row_order : Bool := true
  case_sensitive : Bool := false
deriving Repr

/-- `DefaultResultComparator._values_match`. -/
def valuesMatch (cfg : ComparatorConfig) : Value → Value → Bool
  | Value.null, Value.null => true
  | Value.null, _ => false
  | _, Value.null => false
  | Value.nan, Value.nan => true
  | Value.num a, Value.num b => decide (|a - b| ≤ cfg.numeric_tolerance)
  | Value.nan, Value.num _ => false
  | Value.num _, Value.nan => false
  | Value.str a, Value.str b =>
      if cfg.case_sensitive then a == b else a.toLower == b.toLower
  | Value.other a, Value.other b => a == b
  | _, _ => false

/-- `DefaultResultComparator._rows_match`: values must match on every
common column. -/
def rowsMatch (cfg : ComparatorConfig) (cols : List String) (a e : Row) : Bool :=
  cols.all fun c => valuesMatch cfg (rowGet a c) (rowGet e c)

/-- One step of the greedy assignment in `_compare_rows_unordered`: mark the
first unmatched expected row that matches the actual row `a`; the Bool
reports whether a match was found. -/
def markFirst (cfg : ComparatorConfig) (cols : List String) (a : Row) :
    List (Row × Bool) → List (Row × Bool) × Bool
  | [] => ([], false)
  | (e, m) :: rest =>
    if m = false ∧ rowsMatch cfg cols a e = true then ((e, true) :: rest, true)
    else ((e, m) :: (markFirst cfg cols a rest).1, (markFirst cfg cols a rest).2)

/-- The matched-row count of `_compare_rows_unordered`: fold the greedy
assignment over the actual rows. -/
def countGreedy (cfg : ComparatorConfig) (cols : List String) :
    List Row → List (Row × Bool) → ℕ
  | [], _ => 0
  | a :: rest, st =>
    (if (markFirst cfg cols a st).2 then 1 else 0) +
      countGreedy cfg cols rest (markFirst cfg cols a st).1

/-- `DefaultResultComparator._compare_rows`, reduced to the row-match ratio
(the only output `compare` consumes): 0 when there are no common columns;
otherwise greedy unordered or position-wise ordered counting divided by the
number of expected rows. -/
def compareRows (cfg : ComparatorConfig) (cols : List String)
    (actual expected : List Row) : ℚ :=
  if cols.isEmpty then 0
  else if cfg.ignore_row_order then
    (countGreedy cfg cols actual (expected.map fun e => (e, false)) : ℚ) /
      (expected.length : ℚ)
  else
    ((actual.zip expected).countP
        (fun p => rowsMatch cfg cols p.1 p.2) : ℚ) / (expected.length : ℚ)

/-- The key set of the first actual row (`set(actual[0].keys())`). -/
def actualColumns (actual : List Row) : List String := rowKeys (actual.headD [])

/-- The key set of the first expected row (`set(expected[0].keys())`). -/
def expectedColumns (expected : List Row) : List String :=
  rowKeys (expected.headD [])

/-- `actual_columns ∩ expected_columns`. -/
def commonColumns (actual expected : List Row) : List String :=
  (actualColumns actual).filter fun c => (expectedColumns expected).contains c

/-- `expected_columns - actual_columns`. -/
def missingColumns (actual expected : List Row) : List String :=
  (expectedColumns expected).filter fun c => !((actualColumns actual).contains c)

/-- `actual_columns - expected_columns`. -/
def extraColumns (actual expected : List Row) : List String :=
  (actualColumns actual).filter fun c => !((expectedColumns expected).contains c)

/-- The column match ratio of `DefaultResultComparator.compare`. -/
def columnMatchRatio (actual expected : List Row) : ℚ :=
  if (expectedColumns expected).isEmpty = false then
    ((commonColumns actual expected).length : ℚ) /
      ((expectedColumns expected).length : ℚ)
  else if (actualColumns actual).isEmpty then 1 else 0

/-- `ComparisonResult` (`src/evaluation/data_structures.py`); the free-form
`details` dict is omitted. -/
structure ComparisonResult where
  is_match : Bool
  match_score : ℚ := 0
  row_count_match : Bool := false
  column_count_match : Bool := false
deriving DecidableEq, Repr

/-- The final score formula of `_calculate_match_score`. -/
def calculateMatchScore (column_match_ratio row_match_ratio : ℚ)
    (row_count_match column_count_match : Bool) : ℚ :=
  round4 (0.50 * row_match_ratio + 0.30 * column_match_ratio +
    0.10 * (if row_count_match then (1 : ℚ) else 0) +
    0.10 * (if column_count_match then (1 : ℚ) else 0))

/-- `DefaultResultComparator.compare`. -/
def compare (cfg : ComparatorConfig) (actual expected : List Row) :
    ComparisonResult :=
  if actual.isEmpty && expected.isEmpty then
    { is_match := true, match_score := 1,
      row_count_match := true, column_count_match := true }
  else if actual.isEmpty then
    { is_match := false, match_score := 0,
      row_count_match := false, column_count_match := false }
  else if expected.isEmpty then
    { is_match := false, match_score := 0,
      row_count_match := false, column_count_match := false }
  else
    let ccm := (actualColumns actual).length == (expectedColumns expected).length
    let rcm := actual.length == expected.length
    let score := calculateMatchScore (columnMatchRatio actual expected)
      (compareRows cfg (commonColumns actual expected) actual expected) rcm ccm
    { is_match := decide ((0.99 : ℚ) ≤ score) && rcm && ccm &&
        (missingColumns actual expected).isEmpty &&
        (extraColumns actual expected).isEmpty,
      match_score := score,
      row_count_match := rcm,
      column_count_match := ccm }

/-! ## Scorer (`src/evaluation/scorer.py`, `src/evaluation/data_structures.py`) -/

/-- `ExecutionResult` (`src/evaluation/data_structures.py`), restricted to the
fields `DefaultScorer` reads; `data`, `columns` and the remaining metadata do
not influence any score. -/
structure ExecutionResultE where
  success : Bool
  rows_returned : ℤ := 0
  execution_time_ms : ℚ := 0
  error : Option String := none
  is_valid : Bool := true
  validation_errors : List String := []
  validation_warnings : List String := []
  insights : List String := []
deriving Repr

/-- `MultiDimensionalScore` (weights and details omitted; the default weight
mapping is inlined in `scorerScore` below, as `DefaultScorer` does). -/
structure MultiDimensionalScore where
  correctness : ℚ := 0
  efficiency : ℚ := 0
  safety : ℚ := 0
  result_completeness : ℚ := 0
  validation_score : ℚ := 0
  performance_score : ℚ := 0
  hallucination_score : ℚ := 0
  overall : ℚ := 0
deriving Repr

/-- `DefaultScorer._compute_correctness`. -/
def computeCorrectness (c : ComparisonResult) : ℚ :=
  if c.is_match then 1 else c.match_score

/-- The time → score curve of `DefaultScorer._compute_efficiency` for a
successful execution, with the default thresholds
`excellent=10`, `good=100`, `acceptable=1000`. -/
def effCurve (t : ℚ) : ℚ :=
  if t ≤ 10 then 1
  else if t ≤ 100 then 1 - 0.2 * ((t - 10) / (100 - 10))
  else if t ≤ 1000 then 0.8 - 0.3 * ((t - 100) / (1000 - 100))
  else max 0 (0.5 - (t - 1000) / 10000)

/-- `DefaultScorer._compute_efficiency`: 0 on failed execution, otherwise the
piecewise-linear decay over `execution_time_ms`. -/
def computeEfficiency (e : ExecutionResultE) : ℚ :=
  if e.success = false then 0 else effCurve e.execution_time_ms

/-- `DefaultScorer._compute_validation_score`. -/
def computeValidationScore (e : ExecutionResultE) : ℚ :=
  if e.is_valid then max 0 (1 - (e.validation_warnings.length : ℚ) * 0.1)
  else if e.validation_errors.length = 0 then 0.5
  else if e.validation_errors.length = 1 then 0.3
  else 0.1

/-- The keyword list of `DefaultScorer._compute_hallucination_score`. -/
def hallucinationKeywords : List String :=
  ["does not exist", "unknown column", "unknown table", "invalid",
    "not found", "no such", "doesn\x27t exist"]

/-- `DefaultScorer._compute_hallucination_score`. -/
def computeHallucinationScore (e : ExecutionResultE) : ℚ :=
  if e.is_valid && e.validation_errors.isEmpty then 1
  else
    let cnt := e.validation_errors.countP fun err =>
      hallucinationKeywords.any fun kw => strContains err.toLower kw
    if cnt = 0 then 1 else if cnt = 1 then 0.4 else 0.1

/-- The per-insight deduction of `DefaultScorer._compute_completeness`
(the `if/elif` chain over the lowered insight text). -/
def insightPenalty (s : String) : ℚ :=
  let l := s.toLower
  if strContains l "no results" || strContains l "empty" then 0.2
  else if strContains l "truncated" then 0.1
  else if strContains l "null" then 0.05
  else if strContains l "slow" || strContains l "long" then 0.1
  else 0

/-- The penalty loop of `_compute_completeness`. -/
def applyPenalties : List String → ℚ → ℚ
  | [], s => s
  | i :: rest, s => applyPenalties rest (s - insightPenalty i)

/-- `DefaultScorer._compute_completeness`: start at 1.0, subtract the
per-insight penalties, add the capped has-rows bonus, clamp at 0. -/
def computeCompleteness (e : ExecutionResultE) : ℚ :=
  if e.success = false then 0
  else if 0 < e.rows_returned then
    max 0 (min 1 (applyPenalties e.insights 1 + 0.1))
  else max 0 (applyPenalties e.insights 1)

/-- `DefaultScorer._compute_safety`: `0.4·validation + 0.6·hallucination`. -/
def computeSafety (e : ExecutionResultE) : ℚ :=
  0.4 * computeValidationScore e + 0.6 * computeHallucinationScore e

/-- The default weight mapping of `DefaultScorer.__init__` /
`MultiDimensionalScore.weights`. -/
structure ScoreWeights where
  correctness : ℚ := 0.40
  efficiency : ℚ := 0.20
  safety : ℚ := 0.25
  result_completeness : ℚ := 0.15
deriving Repr

/-- `MultiDimensionalScore.compute_overall`: the weighted sum over the four
primary dimensions. -/
def computeOverall (w : ScoreWeights) (s : MultiDimensionalScore) : ℚ :=
  w.correctness * s.correctness + w.efficiency * s.efficiency +
    w.safety * s.safety + w.result_completeness * s.result_completeness

/-- `DefaultScorer.score` with the default weights and thresholds. -/
def scorerScore (c : ComparisonResult) (e : ExecutionResultE) :
    MultiDimensionalScore :=
  let base : MultiDimensionalScore :=
    { correctness := computeCorrectness c,
      efficiency := computeEfficiency e,
      safety := computeSafety e,
      result_completeness := computeCompleteness e,
      validation_score := computeValidationScore e,
      performance_score := computeEfficiency e,
      hallucination_score := computeHallucinationScore e }
  { base with overall := computeOverall {} base }

/-! ## Error classifier (`src/agentx_a2a/green_agent/error_metrics.py`) -/

/-- `ErrorCategory`. -/
inductive ErrorCategory where
  | SCHEMA_ERROR | ANALYSIS_ERROR | SQL_ERROR | PROMPT_ERROR
  | KNOWLEDGE_ERROR | NO_ERROR
deriving DecidableEq, Repr

/-- `ErrorSubcategory`. -/
inductive ErrorSubcategory where
  | WRONG_SCHEMA_LINKING | WRONG_COLUMN | WRONG_TABLE
  | ERRONEOUS_DATA_ANALYSIS | INCORRECT_PLANNING | INCORRECT_DATA_CALCULATION
  | SYNTAX_ERROR | CONDITION_FILTER_ERROR | JOIN_ERROR | DIALECT_FUNCTION_ERROR
  | EXCESSIVE_PROMPT_LENGTH | MISUNDERSTANDING_EXTERNAL_KNOWLEDGE
  | NO_ERROR
deriving DecidableEq, Repr

/-- `ErrorClassification`. -/
structure ErrorClassification where
  category : ErrorCategory
  subcategory : ErrorSubcategory
  confidence : ℚ
  details : String := ""
  evidence : List String := []
deriving DecidableEq, Repr

/-- The compiled pattern families of `SQLErrorClassifier`, in the order the
`classify` method consults them. A regex engine is not modelled: pattern
search is an oracle `patternHit family text = some hit` standing for
`pattern.search(error_text)` over the family's compiled regexes, with `hit`
the matched text (`match.group(0)`). Every theorem below holds for every
oracle, because the statements only concern branches that are decided before
any pattern is consulted. -/
def patternFamilies : List String :=
  ["wrong_table", "wrong_column", "syntax_error", "join_error",
    "condition_filter_error", "dialect_function_error",
    "incorrect_planning", "incorrect_data_calculation"]

/-- The pairing of each pattern family with the classification it produces
in `classify` (category, subcategory, confidence, details prefix). -/
def familyResult (family : String) (hit : String) : ErrorClassification :=
  if family = "wrong_table" then
    { category := ErrorCategory.SCHEMA_ERROR,
      subcategory := ErrorSubcategory.WRONG_TABLE, confidence := 0.9,
      details := "Table error detected: " ++ hit, evidence := [hit] }
  else if family = "wrong_column" then
    { category := ErrorCategory.SCHEMA_ERROR,
      subcategory := ErrorSubcategory.WRONG_COLUMN, confidence := 0.9,
      details := "Column error detected: " ++ hit, evidence := [hit] }
  else if family = "syntax_error" then
    { category := ErrorCategory.SQL_ERROR,
      subcategory := ErrorSubcategory.SYNTAX_ERROR, confidence := 0.9,
      details := "Syntax error detected: " ++ hit, evidence := [hit] }
  else if family = "join_error" then
    { category := ErrorCategory.SQL_ERROR,
      subcategory := ErrorSubcategory.JOIN_ERROR, confidence := 0.85,
      details := "Join error detected: " ++ hit, evidence := [hit] }
  else if family = "condition_filter_error" then
    { category := ErrorCategory.SQL_ERROR,
      subcategory := ErrorSubcategory.CONDITION_FILTER_ERROR, confidence := 0.85,
      details := "Condition filter error: " ++ hit, evidence := [hit] }
  else if family = "dialect_function_error" then
    { category := ErrorCategory.SQL_ERROR,
      subcategory := ErrorSubcategory.DIALECT_FUNCTION_ERROR, confidence := 0.85,
      details := "Function/dialect error: " ++ hit, evidence := [hit] }
  else if family = "incorrect_planning" then
    { category := ErrorCategory.ANALYSIS_ERROR,
      subcategory := ErrorSubcategory.INCORRECT_PLANNING, confidence := 0.8,
      details := "Planning error: " ++ hit, evidence := [hit] }
  else
    { category := ErrorCategory.ANALYSIS_ERROR,
      subcategory := ErrorSubcategory.INCORRECT_DATA_CALCULATION,
      confidence := 0.8,
      details := "Calculation error: " ++ hit, evidence := [hit] }

/-- Scan the pattern families in order against the error text; first hit
wins (the sequence of `for pattern in ...` loops in `classify`). -/
def scanFamilies (patternHit : String → String → Option String)
    (errorText : String) : List String → Option ErrorClassification
  | [] => none
  | f :: rest =>
    match patternHit f errorText with
    | some hit => some (familyResult f hit)
    | none => scanFamilies patternHit errorText rest

/-- The arguments of `SQLErrorClassifier.classify`. -/
structure ClassifyArgs where
  sql_submitted : String
  gold_sql : Option String := none
  execution_success : Bool
  validation_errors : List String := []
  phantom_tables : List String := []
  phantom_columns : List String := []
  error_message : Option String := none
  match_score : Option ℚ := none
deriving Repr

/-- `" ".join(validation_errors + [error_message]).lower()`. -/
def classifyErrorText (a : ClassifyArgs) : String :=
  (String.intercalate " "
    (a.validation_errors ++ (match a.error_message with
      | some m => [m]
      | none => []))).toLower

/-- The last four branches of `SQLErrorClassifier.classify` (result-mismatch
analysis errors, the failed-execution fallback, the moderate-match-score
branch and the final default). -/
def classifyTail (a : ClassifyArgs) : ErrorClassification :=
  if ∃ m, a.match_score = some m ∧ m < (0.5 : ℚ) ∧
      a.execution_success = true then
    { category := ErrorCategory.ANALYSIS_ERROR,
      subcategory := ErrorSubcategory.ERRONEOUS_DATA_ANALYSIS,
      confidence := 0.7,
      details := "Results do not match expected" }
  else if a.execution_success = false ∧
      (∃ m, a.error_message = some m ∧ m ≠ "") then
    { category := ErrorCategory.SQL_ERROR,
      subcategory := ErrorSubcategory.SYNTAX_ERROR, confidence := 0.5,
      details := "Execution failed",
      evidence := match a.error_message with
        | some m => [m]
        | none => [] }
  else if ∃ m, a.match_score = some m ∧ (0.5 : ℚ) ≤ m ∧ m < (0.8 : ℚ) then
    { category := ErrorCategory.ANALYSIS_ERROR,
      subcategory := ErrorSubcategory.INCORRECT_PLANNING,
      confidence := 0.6,
      details := "Query structure differs from expected" }
  else
    { category := ErrorCategory.NO_ERROR,
      subcategory := ErrorSubcategory.NO_ERROR, confidence := 0.5,
      details := "No clear error pattern detected" }

/-- `SQLErrorClassifier.classify`. `patternHit` is the regex oracle (see
`patternFamilies`); `schemaLinking` stands for `_analyze_schema_linking`,
returning the list of identified issues. -/
def classify (patternHit : String → String → Option String)
    (schemaLinking : String → String → List String)
    (a : ClassifyArgs) : ErrorClassification :=
  if a.execution_success = true ∧ a.validation_errors = [] ∧
      (∃ m, a.match_score = some m ∧ (0.95 : ℚ) ≤ m) then
    { category := ErrorCategory.NO_ERROR,
      subcategory := ErrorSubcategory.NO_ERROR, confidence := 1,
      details := "Query executed successfully with correct results" }
  else if a.phantom_tables ≠ [] then
    { category := ErrorCategory.SCHEMA_ERROR,
      subcategory := ErrorSubcategory.WRONG_TABLE, confidence := 0.95,
      details := "Referenced non-existent table(s): " ++
        String.intercalate ", " a.phantom_tables,
      evidence := a.phantom_tables }
  else if a.phantom_columns ≠ [] then
    { category := ErrorCategory.SCHEMA_ERROR,
      subcategory := ErrorSubcategory.WRONG_COLUMN, confidence := 0.95,
      details := "Referenced non-existent column(s): " ++
        String.intercalate ", " a.phantom_columns,
      evidence := a.phantom_columns }
  else
    match scanFamilies patternHit (classifyErrorText a) patternFamilies with
    | some c => c
    | none =>
      match a.gold_sql with
      | some g =>
        if g ≠ "" ∧ a.sql_submitted ≠ "" ∧
            schemaLinking a.sql_submitted g ≠ [] then
          { category := ErrorCategory.SCHEMA_ERROR,
            subcategory := ErrorSubcategory.WRONG_SCHEMA_LINKING,
            confidence := 0.7,
            details := "Incorrect schema linking detected",
            evidence := schemaLinking a.sql_submitted g }
        else classifyTail a
      | none => classifyTail a

/-! ## Resilience layer (`src/agentx_a2a/resilience.py`) -/

/-- `CircuitState`. -/
inductive CircuitState where
  | CLOSED | OPEN | HALF_OPEN
deriving DecidableEq, Repr

/-- `CircuitBreaker`: configuration plus mutable state. The monotonic clock
is passed explicitly to the operations that read it. -/
structure CircuitBreaker where
  failure_threshold : ℕ := 3
  recovery_timeout : ℚ := 30
  half_open_max_calls : ℕ := 1
  failures : ℕ := 0
  state : CircuitState := CircuitState.CLOSED
  last_failure_time : Option ℚ := none
  half_open_calls : ℕ := 0
deriving DecidableEq, Repr

/-- `CircuitBreaker.record_success`: reset failures and close circuit. -/
def recordSuccess (cb : CircuitBreaker) : CircuitBreaker :=
  { cb with
    failures := 0
    half_open_calls := 0
    state := CircuitState.CLOSED }

/-- `CircuitBreaker.record_failure` at monotonic time `now`. -/
def recordFailure (now : ℚ) (cb : CircuitBreaker) : CircuitBreaker :=
  let cb := { cb with
    failures := cb.failures + 1
    last_failure_time := some now }
  if cb.state = CircuitState.HALF_OPEN then
    { cb with state := CircuitState.OPEN }
  else if cb.failure_threshold ≤ cb.failures then
    { cb with state := CircuitState.OPEN }
  else cb

/-- `CircuitBreaker.can_execute` at monotonic time `now`; returns the
decision and the (possibly mutated) breaker. -/
def canExecute (now : ℚ) (cb : CircuitBreaker) : Bool × CircuitBreaker :=
  if cb.state = CircuitState.CLOSED then (true, cb)
  else if cb.state = CircuitState.OPEN then
    match cb.last_failure_time with
    | none => (true, cb)
    | some t =>
      if cb.recovery_timeout ≤ now - t then
        (true, { cb with
          state := CircuitState.HALF_OPEN
          half_open_calls := 0 })
      else (false, cb)
  else
    if cb.half_open_calls < cb.half_open_max_calls then
      (true, { cb with half_open_calls := cb.half_open_calls + 1 })
    else (false, cb)

/-- Outcome of one attempt inside `_request_with_retry`: a parsed JSON
response, an HTTP error status raised by `resp.raise_for_status()` (an
`aiohttp.ClientResponseError`, subclass of `aiohttp.ClientError`), a
connection-level `aiohttp.ClientError`, an `asyncio.TimeoutError`, or any
other exception. -/
inductive HTTPOutcome where
  | ok (response : String)
  | httpError (status : ℕ)
  | networkError
  | timeout
  | otherError
deriving DecidableEq, Repr

/-- The tenacity predicate
`retry_if_exception_type((aiohttp.ClientError, asyncio.TimeoutError))`.
`httpError` is retryable for every status: `ClientResponseError` (raised for
any 4xx/5xx by `raise_for_status`) is a subclass of `ClientError`. -/
def isRetryable : HTTPOutcome → Bool
  | HTTPOutcome.ok _ => false
  | HTTPOutcome.httpError _ => true
  | HTTPOutcome.networkError => true
  | HTTPOutcome.timeout => true
  | HTTPOutcome.otherError => false

/-- The attempt loop of `@retry(stop=stop_after_attempt(3), ...)` around
`_request_with_retry`. `oracle k` is the outcome of attempt `k` (0-based);
`remaining` is the number of attempts still permitted. Returns the number of
attempts performed and the final outcome (returned value, or the exception
re-raised by `reraise=True`). -/
def retryGo (oracle : ℕ → HTTPOutcome) : ℕ → ℕ → ℕ × HTTPOutcome
  | i, 0 => (i, HTTPOutcome.otherError)
  | i, remaining + 1 =>
    if isRetryable (oracle i) && remaining != 0 then
      retryGo oracle (i + 1) remaining
    else (i + 1, oracle i)

/-- `ResilientHTTPClient._request_with_retry`: at most three attempts. -/
def requestWithRetry (oracle : ℕ → HTTPOutcome) : ℕ × HTTPOutcome :=
  retryGo oracle 0 3

/-- Result of `ResilientHTTPClient.request`: fail-fast circuit rejection
(`CircuitOpenError(host)`) or a completed retry loop. -/
inductive RequestResult where
  | circuitOpen (host : String)
  | completed (attempts : ℕ) (outcome : HTTPOutcome)
deriving DecidableEq, Repr

/-- `ResilientHTTPClient.request` against the circuit breaker of `host`:
check `can_execute`, fail fast with `CircuitOpenError` when rejected
(issuing no attempt), otherwise run the retry loop and record
success/failure on the breaker. -/
def clientRequest (oracle : ℕ → HTTPOutcome) (host : String) (now : ℚ)
    (cb : CircuitBreaker) : RequestResult × CircuitBreaker :=
  match canExecute now cb with
  | (false, cb1) => (RequestResult.circuitOpen host, cb1)
  | (true, cb1) =>
    match requestWithRetry oracle with
    | (n, HTTPOutcome.ok r) =>
      (RequestResult.completed n (HTTPOutcome.ok r), recordSuccess cb1)
    | (n, o) => (RequestResult.completed n o, recordFailure now cb1)

/-! ## Artifact builder (`src/a2a/green_agent/artifact_builder.py`,
`src/agentx_a2a/green_agent/config.py`) -/

/-- `ScoreSummary` (`config.py`). -/
structure ScoreSummary where
  overall : ℚ
  correctness : ℚ
  efficiency : ℚ
  safety : ℚ
  completeness : ℚ
  semantic_accuracy : ℚ
  best_practices : ℚ
  plan_quality : ℚ
  hallucination_score : ℚ := 1
  validation_score : ℚ := 1
  performance_score : ℚ := 1
deriving DecidableEq, Repr

/-- The all-zero `ScoreSummary` used for empty/failed cases. -/
def zeroScores : ScoreSummary :=
  { overall := 0, correctness := 0, efficiency := 0, safety := 0,
    completeness := 0, semantic_accuracy := 0, best_practices := 0,
    plan_quality := 0 }

/-- `TaskResult` (`config.py`), restricted to the fields the artifact
builder and orchestrator read. -/
structure TaskResultC where
  task_id : String
  question : String := ""
  sql_submitted : String := ""
  gold_sql : Option String := none
  scores : ScoreSummary
  execution_success : Bool
  execution_time_ms : ℚ := 0
  rows_returned : ℕ := 0
  validation_errors : List String := []
  phantom_tables : List String := []
  phantom_columns : List String := []
  error_message : Option String := none
deriving DecidableEq, Repr

/-- `ParticipantSummary` (`config.py`). -/
structure ParticipantSummaryC where
  participant_id : String
  endpoint : String
  total_tasks : ℕ
  successful : ℕ
  failed : ℕ
  scores : ScoreSummary
  task_results : List TaskResultC := []
deriving DecidableEq, Repr

/-- `RankedParticipant` (`config.py`). -/
structure RankedParticipant where
  rank : ℕ
  participant_id : String
  overall_score : ℚ
deriving DecidableEq, Repr

/-- `ArtifactBuilder._average_scores`: arithmetic mean of every dimension
over the task results (all-zero when the list is empty). -/
def averageScores (trs : List TaskResultC) : ScoreSummary :=
  if trs.isEmpty then zeroScores
  else
    let n : ℚ := trs.length
    { overall := (trs.map fun tr => tr.scores.overall).sum / n,
      correctness := (trs.map fun tr => tr.scores.correctness).sum / n,
      efficiency := (trs.map fun tr => tr.scores.efficiency).sum / n,
      safety := (trs.map fun tr => tr.scores.safety).sum / n,
      completeness := (trs.map fun tr => tr.scores.completeness).sum / n,
      semantic_accuracy :=
        (trs.map fun tr => tr.scores.semantic_accuracy).sum / n,
      best_practices := (trs.map fun tr => tr.scores.best_practices).sum / n,
      plan_quality := (trs.map fun tr => tr.scores.plan_quality).sum / n,
      hallucination_score :=
        (trs.map fun tr => tr.scores.hallucination_score).sum / n,
      validation_score :=
        (trs.map fun tr => tr.scores.validation_score).sum / n,
      performance_score :=
        (trs.map fun tr => tr.scores.performance_score).sum / n }

/-- `ArtifactBuilder._build_participant_summary`. -/
def buildParticipantSummary (pid endpoint : String)
    (trs : List TaskResultC) : ParticipantSummaryC :=
  if trs.isEmpty then
    { participant_id := pid, endpoint := endpoint, total_tasks := 0,
      successful := 0, failed := 0, scores := zeroScores, task_results := [] }
  else
    let successful := trs.countP fun tr => tr.execution_success
    { participant_id := pid, endpoint := endpoint,
      total_tasks := trs.length, successful := successful,
      failed := trs.length - successful,
      scores := averageScores trs, task_results := trs }

/-- `enumerate(sorted_participants, start=1)` turned into
`RankedParticipant` records. -/
def addRanks (n : ℕ) : List (String × ParticipantSummaryC) →
    List RankedParticipant
  | [] => []
  | (pid, s) :: rest =>
    { rank := n, participant_id := pid, overall_score := s.scores.overall } ::
      addRanks (n + 1) rest

/-- The comparator handed to Python's stable
`sorted(..., key=overall, reverse=True)`: `a` may precede `b` exactly when
`b.overall ≤ a.overall`. -/
def rankLE (a b : String × ParticipantSummaryC) : Bool :=
  decide (b.2.scores.overall ≤ a.2.scores.overall)

/-- `ArtifactBuilder._build_rankings`: stable sort of the summaries,
descending by overall score, then rank by position starting at 1. -/
def buildRankings (summaries : List (String × ParticipantSummaryC)) :
    List RankedParticipant :=
  addRanks 1 (summaries.mergeSort rankLE)

/-- One cell of the task-comparison matrix. -/
structure AgentScoreCell where
  participant_id : String
  overall : ℚ
  sql : String
  execution_success : Bool
deriving DecidableEq, Repr

/-- One row of `ArtifactBuilder._build_task_comparison`. -/
structure TaskComparisonRow where
  task_id : String
  agent_scores : List AgentScoreCell
deriving DecidableEq, Repr

/-- `ArtifactBuilder._build_task_comparison`: task ids are taken from the
first participant; each row collects (overall, truncated sql, success) for
every participant having a result at that index. -/
def buildTaskComparison (results : List (String × List TaskResultC)) :
    List TaskComparisonRow :=
  match results with
  | [] => []
  | (_, first) :: _ =>
    (List.range first.length).map fun i =>
      { task_id := match first[i]? with
          | some tr => tr.task_id
          | none => ""
        agent_scores := results.filterMap fun pr =>
          match pr.2[i]? with
          | some tr =>
            some { participant_id := pr.1
                   overall := round4 tr.scores.overall
                   sql := String.mk (tr.sql_submitted.toList.take 200)
                   execution_success := tr.execution_success }
          | none => none }

/-- `AssessmentArtifact` (`config.py`), restricted to the fields the claims
concern; `completed_at` is passed in for `datetime.utcnow()`. -/
structure AssessmentArtifactC where
  assessment_id : String
  completed_at : String
  rankings : List RankedParticipant
  participants : List (String × ParticipantSummaryC)
  task_comparison : List TaskComparisonRow
  total_tasks_evaluated : ℕ
  total_participants : ℕ
deriving DecidableEq, Repr

/-- `dict.get(pid, "")` over the participants mapping. -/
def endpointOf (participants : List (String × String)) (pid : String) :
    String :=
  match participants.lookup pid with
  | some e => e
  | none => ""

/-- `ArtifactBuilder.build`. -/
def artifactBuild (assessment_id completed_at : String)
    (participants : List (String × String))
    (results : List (String × List TaskResultC)) : AssessmentArtifactC :=
  let summaries := results.map fun pr =>
    (pr.1, buildParticipantSummary pr.1 (endpointOf participants pr.1) pr.2)
  { assessment_id := assessment_id,
    completed_at := completed_at,
    rankings := buildRankings summaries,
    participants := summaries,
    task_comparison := buildTaskComparison results,
    total_tasks_evaluated := (results.map fun pr => pr.2.length).sum,
    total_participants := participants.length }

/-! ## Orchestrator (`src/agentx_a2a/green_agent/sql_benchmark_agent.py`) -/

/-- A gold task (one element of the gold-queries JSON catalog), with
`task.get("difficulty", "medium")` already applied. -/
structure GoldTaskC where
  id : String
  question : String := ""
  gold_sql : Option String := none
  difficulty : String := "medium"
  tags : List String := []
deriving DecidableEq, Repr

/-- `AssessmentConfig` (`config.py`). -/
structure AssessmentConfigC where
  difficulty : List String := ["easy", "medium"]
  task_count : ℕ := 10
  tags : Option (List String) := none
  schema_type : String := "basic"
  scorer_preset : String := "default"
  dialect : String := "sqlite"
  timeout_seconds : ℚ := 30
  same_tasks : Bool := true
  parallel_evaluation : Bool := true
deriving Repr

/-- The accumulator loop of `SQLBenchmarkGreenAgent._filter_tasks`:
difficulty filter, optional tag filter, early break once `task_count`
results are collected (the count check runs after the append). -/
def filterTasksGo (cfg : AssessmentConfigC) :
    List GoldTaskC → List GoldTaskC → List GoldTaskC
  | [], acc => acc.reverse
  | t :: rest, acc =>
    if !(cfg.difficulty.contains t.difficulty) then filterTasksGo cfg rest acc
    else if (match cfg.tags with
        | some tags => !tags.isEmpty && !(tags.any fun tag => t.tags.contains tag)
        | none => false) then
      filterTasksGo cfg rest acc
    else if cfg.task_count ≤ acc.length + 1 then (t :: acc).reverse
    else filterTasksGo cfg rest (t :: acc)

/-- `SQLBenchmarkGreenAgent._filter_tasks`. -/
def filterTasks (cfg : AssessmentConfigC) (all : List GoldTaskC) :
    List GoldTaskC :=
  filterTasksGo cfg all []

/-- A Purple-Agent response `{sql, error?}` as consumed by the orchestrator
(transport exceptions are already folded into `{sql: "", error: msg}`, as
`handle_assessment` does). -/
structure SqlResponseC where
  sql : String
  error : Option String := none
deriving DecidableEq, Repr

/-- `TaskUpdate` (`config.py`), restricted to status/message/progress plus
an artifact-presence flag. -/
structure TaskUpdateC where
  status : String
  message : String := ""
  progress : Option ℚ := none
  hasArtifact : Bool := false
deriving DecidableEq, Repr

/-- Result of running the `handle_assessment` generator to completion:
either the full update stream, or the updates emitted before an uncaught
exception terminated the generator. -/
inductive AssessmentOutcome where
  | stream (updates : List TaskUpdateC)
  | crashed (updates : List TaskUpdateC) (err : String)
deriving DecidableEq, Repr

/-- The updates actually emitted to the consumer. -/
def AssessmentOutcome.updates : AssessmentOutcome → List TaskUpdateC
  | AssessmentOutcome.stream us => us
  | AssessmentOutcome.crashed us _ => us

/-- Whether the generator raised instead of finishing. -/
def AssessmentOutcome.isCrashed : AssessmentOutcome → Bool
  | AssessmentOutcome.stream _ => false
  | AssessmentOutcome.crashed _ _ => true

/-- The zero-score `TaskResult` synthesized for an empty-SQL response. -/
def zeroTaskResult (t : GoldTaskC) (err : Option String) : TaskResultC :=
  { task_id := t.id
    question := t.question
    sql_submitted := ""
    gold_sql := t.gold_sql
    scores := zeroScores
    execution_success := false
    execution_time_ms := 0
    rows_returned := 0
    error_message := some (match err with
      | some e => e
      | none => "No SQL returned") }

/-- Evaluate one response: empty SQL synthesizes a failed result, otherwise
`_evaluate_sql` runs (modelled by the `evalSql` oracle for the execution
pipeline, which is out of scope for the orchestration claims). -/
def evalOne (evalSql : String → GoldTaskC → TaskResultC) (t : GoldTaskC)
    (resp : SqlResponseC) : TaskResultC :=
  if resp.sql = "" then zeroTaskResult t resp.error else evalSql resp.sql t

/-- Append a task result to one participant's accumulator list. -/
def appendResult (pid : String) (tr : TaskResultC) :
    List (String × List TaskResultC) → List (String × List TaskResultC)
  | [] => []
  | (p, l) :: rest =>
    if p == pid then (p, l ++ [tr]) :: rest
    else (p, l) :: appendResult pid tr rest

/-- The `for pid, response in responses.items()` loop of one task: evaluate
each response, append it, emit a `working` update with progress
`0.1 + 0.85·done/total`. Returns the updated evaluation counter, the
accumulator and the emitted updates. -/
def processResponses (evalSql : String → GoldTaskC → TaskResultC)
    (total : ℕ) (t : GoldTaskC) :
    List (String × SqlResponseC) → ℕ → List (String × List TaskResultC) →
    ℕ × List (String × List TaskResultC) × List TaskUpdateC
  | [], done, results => (done, results, [])
  | (pid, resp) :: rest, done, results =>
    let tr := evalOne evalSql t resp
    let results1 := appendResult pid tr results
    let done1 := done + 1
    let u : TaskUpdateC :=
      { status := "working"
        message := pid ++ ": " ++ t.id ++ " scored"
        progress := some (1/10 + (17/20) * ((done1 : ℚ) / (total : ℚ))) }
    let rec' := processResponses evalSql total t rest done1 results1
    (rec'.1, rec'.2.1, u :: rec'.2.2)

/-- The task loop of `handle_assessment`: per task, collect every
participant's response (`sender endpoint task`, exceptions already folded
in) and process them in participant order. -/
def processTasks (evalSql : String → GoldTaskC → TaskResultC)
    (sender : String → GoldTaskC → SqlResponseC)
    (participants : List (String × String)) (total : ℕ) :
    List GoldTaskC → ℕ → List (String × List TaskResultC) →
    List (String × List TaskResultC) × List TaskUpdateC
  | [], _, results => (results, [])
  | t :: rest, done, results =>
    let responses := participants.map fun pr => (pr.1, sender pr.2 t)
    let step := processResponses evalSql total t responses done results
    let tail := processTasks evalSql sender participants total rest
      step.1 step.2.1
    (tail.1, step.2.2 ++ tail.2)

/-- `SQLBenchmarkGreenAgent.handle_assessment`: the full generator.
`evalSql` abstracts `_evaluate_sql` (execution + scoring pipeline) and
`sender` abstracts `send_task_func` with transport failures already folded
into `{sql: "", error: msg}` responses. The final `completed` update
interpolates `artifact.rankings[0]` into its message; with no rankings this
raises `IndexError` and the generator dies without a terminal update. -/
def handleAssessment (evalSql : String → GoldTaskC → TaskResultC)
    (sender : String → GoldTaskC → SqlResponseC)
    (assessment_id completed_at : String)
    (participants : List (String × String)) (allTasks : List GoldTaskC)
    (cfg : AssessmentConfigC) : AssessmentOutcome :=
  let u0 : TaskUpdateC :=
    { status := "submitted"
      message := "Assessment " ++ assessment_id ++ " started with " ++
        toString participants.length ++ " participants"
      progress := some 0 }
  let tasks := filterTasks cfg allTasks
  if tasks.isEmpty then
    AssessmentOutcome.stream [u0,
      { status := "failed"
        message := "No tasks match the specified criteria"
        progress := some 1 }]
  else
    let total := tasks.length * participants.length
    let u1 : TaskUpdateC :=
      { status := "working"
        message := "Evaluating " ++ toString tasks.length ++ " tasks across " ++
          toString participants.length ++ " participants"
        progress := some (1/20) }
    let init := participants.map fun pr => (pr.1, ([] : List TaskResultC))
    let run := processTasks evalSql sender participants total tasks 0 init
    let u95 : TaskUpdateC :=
      { status := "working"
        message := "Building assessment artifact with rankings..."
        progress := some (19/20) }
    let emitted := u0 :: u1 :: (run.2 ++ [u95])
    let artifact := artifactBuild assessment_id completed_at participants run.1
    match artifact.rankings with
    | [] => AssessmentOutcome.crashed emitted "IndexError: list index out of range"
    | r0 :: _ =>
      AssessmentOutcome.stream (emitted ++
        [{ status := "completed"
           message := "Assessment complete. Winner: " ++ r0.participant_id
           progress := some 1
           hasArtifact := true }])

/-! ## Concrete fixtures -/

/-- A score summary with every dimension ½, for tie-break evaluations. -/
def halfScores : ScoreSummary :=
  { overall := 1/2, correctness := 1/2, efficiency := 1/2, safety := 1/2,
    completeness := 1/2, semantic_accuracy := 1/2, best_practices := 1/2,
    plan_quality := 1/2 }

/-- A results map whose two participants are tied on overall score, with
id "b" inserted before id "a". -/
def tieResults : List (String × List TaskResultC) :=
  [("b", [{ task_id := "t1", scores := halfScores, execution_success := true }]),
   ("a", [{ task_id := "t1", scores := halfScores, execution_success := true }])]

/-! ## Theorems -/

/-- Helper: the three-attempt loop of `requestWithRetry`, unrolled. -/
theorem requestWithRetry_eq (oracle : ℕ → HTTPOutcome) :
    requestWithRetry oracle =
      if isRetryable (oracle 0) then
        if isRetryable (oracle 1) then (3, oracle 2) else (2, oracle 1)
      else (1, oracle 0) := by
  show retryGo oracle 0 3 = _
  cases h0 : isRetryable (oracle 0) <;>
    cases h1 : isRetryable (oracle 1) <;>
      simp [retryGo, h0, h1]

/-- C10: from every breaker state and failure count, a single
`record_success` leaves the breaker closed with failure count 0 and
half-open call count 0, and the next `can_execute` returns true; in
particular a success recorded while the circuit is open closes it directly
without passing through half_open. -/
theorem recordSuccess_closes (cb : CircuitBreaker) (now : ℚ) :
    (recordSuccess cb).state = CircuitState.CLOSED ∧
    (recordSuccess cb).failures = 0 ∧
    (recordSuccess cb).half_open_calls = 0 ∧
    (canExecute now (recordSuccess cb)).1 = true := by
  refine ⟨rfl, rfl, rfl, ?_⟩
  simp [canExecute, recordSuccess]

/-- C5 (code evaluation): after three consecutive failures the default
breaker is open with failure count 3; a request before the 30 s recovery
timeout fails fast with `CircuitOpenError` carrying the host and consults
no attempt oracle; but once the timeout elapses, TWO consecutive
`can_execute` calls return true before any result is recorded — the
open → half_open transition call does not count toward
`half_open_max_calls = 1`, contradicting the documented single test
request. -/
theorem circuitBreaker_half_open_allows_two_calls :
    (recordFailure 2 (recordFailure 1 (recordFailure 0
        ({} : CircuitBreaker)))).state = CircuitState.OPEN ∧
    (recordFailure 2 (recordFailure 1 (recordFailure 0
        ({} : CircuitBreaker)))).failures = 3 ∧
    (canExecute 10 (recordFailure 2 (recordFailure 1 (recordFailure 0
        ({} : CircuitBreaker))))).1 = false ∧
    clientRequest (fun _ => HTTPOutcome.ok "resp") "agent-host" 10
        (recordFailure 2 (recordFailure 1 (recordFailure 0
          ({} : CircuitBreaker)))) =
      (RequestResult.circuitOpen "agent-host",
        recordFailure 2 (recordFailure 1 (recordFailure 0
          ({} : CircuitBreaker)))) ∧
    (canExecute 32 (recordFailure 2 (recordFailure 1 (recordFailure 0
        ({} : CircuitBreaker))))).1 = true ∧
    ((canExecute 32 (recordFailure 2 (recordFailure 1 (recordFailure 0
        ({} : CircuitBreaker))))).2).state = CircuitState.HALF_OPEN ∧
    (canExecute 32 ((canExecute 32 (recordFailure 2 (recordFailure 1
        (recordFailure 0 ({} : CircuitBreaker))))).2)).1 = true := by
  have h3 : recordFailure 2 (recordFailure 1 (recordFailure 0
      ({} : CircuitBreaker))) =
      { failures := 3, state := CircuitState.OPEN, last_failure_time := some 2 } :=
    rfl
  rw [h3]
  have hlt : ¬ ((30 : ℚ) ≤ 10 - 2) := by norm_num
  have hge : (30 : ℚ) ≤ 32 - 2 := by norm_num
  have h10 : canExecute 10
      ({ failures := 3, state := CircuitState.OPEN, last_failure_time := some 2 } :
        CircuitBreaker) =
      (false,
        { failures := 3, state := CircuitState.OPEN, last_failure_time := some 2 }) := by
    simp [canExecute, hlt]
  have h32 : canExecute 32
      ({ failures := 3, state := CircuitState.OPEN, last_failure_time := some 2 } :
        CircuitBreaker) =
      (true,
        { failures := 3, state := CircuitState.HALF_OPEN, last_failure_time := some 2 }) := by
    simp [canExecute, hge]
  refine ⟨rfl, rfl, ?_, ?_, ?_, ?_, ?_⟩
  · rw [h10]
  · unfold clientRequest
    rw [h10]
  · rw [h32]
  · rw [h32]
  · rw [h32]
    rfl

/-- C3 (counterexample): a pure HTTP 404 run uses all three attempts — a
4xx response raises `ClientResponseError`, a subclass of the retried
`aiohttp.ClientError`, so it IS retried, contrary to the claim. -/
theorem http404_is_retried :
    (requestWithRetry (fun _ => HTTPOutcome.httpError 404)).1 = 3 ∧
    isRetryable (HTTPOutcome.httpError 404) = true := by
  decide

/-- C3 (amended): every dispatch makes at most three attempts; every
non-final attempt ended in a retryable outcome (a network error, a timeout,
or ANY HTTP error status — 4xx and 5xx alike); and the loop stops before
the third attempt only on a non-retryable outcome (success or an
unexpected non-HTTP exception). -/
theorem requestWithRetry_spec (oracle : ℕ → HTTPOutcome) :
    (requestWithRetry oracle).1 ≤ 3 ∧
    1 ≤ (requestWithRetry oracle).1 ∧
    (requestWithRetry oracle).2 = oracle ((requestWithRetry oracle).1 - 1) ∧
    (∀ k, k + 1 < (requestWithRetry oracle).1 →
      isRetryable (oracle k) = true) ∧
    ((requestWithRetry oracle).1 < 3 →
      isRetryable (oracle ((requestWithRetry oracle).1 - 1)) = false) := by
  have heq := requestWithRetry_eq oracle
  cases h0 : isRetryable (oracle 0) with
  | false =>
    have e : requestWithRetry oracle = (1, oracle 0) := by
      rw [heq]; simp [h0]
    rw [e]
    refine ⟨by norm_num, by norm_num, rfl, ?_, ?_⟩
    · intro k hk
      exact absurd hk (by omega)
    · intro _; exact h0
  | true =>
    cases h1 : isRetryable (oracle 1) with
    | false =>
      have e : requestWithRetry oracle = (2, oracle 1) := by
        rw [heq]; simp [h0, h1]
      rw [e]
      refine ⟨by norm_num, by norm_num, rfl, ?_, ?_⟩
      · intro k hk
        have hk0 : k = 0 := by omega
        subst hk0; exact h0
      · intro _; exact h1
    | true =>
      have e : requestWithRetry oracle = (3, oracle 2) := by
        rw [heq]; simp [h0, h1]
      rw [e]
      refine ⟨by norm_num, by norm_num, rfl, ?_, ?_⟩
      · intro k hk
        have hk01 : k = 0 ∨ k = 1 := by omega
        rcases hk01 with h | h <;> subst h
        · exact h0
        · exact h1
      · intro h
        exact absurd h (by norm_num)

/-- C3 (witness for `requestWithRetry_spec`): at the constant-timeout
oracle, the loop performs exactly three attempts and attempt 0 was
retryable. -/
theorem requestWithRetry_spec_witness :
    (requestWithRetry (fun _ => HTTPOutcome.timeout)).1 ≤ 3 ∧
    isRetryable ((fun _ => HTTPOutcome.timeout) 0) = true :=
  ⟨(requestWithRetry_spec (fun _ => HTTPOutcome.timeout)).1,
    (requestWithRetry_spec (fun _ => HTTPOutcome.timeout)).2.2.2.1 0
      (by decide)⟩

/-- C1 (counterexample): with `execution_success=true`, no validation
errors and `match_score=1.0`, the classifier returns `no_error/no_error`
(confidence 1.0) even though `phantom_tables = ["ghost"]` is non-empty —
the success short-circuit at the top of `classify` runs before the phantom
check, so the claim's "regardless of execution_success, validation_errors,
and match_score" is false. -/
theorem classify_phantom_tables_not_absolute :
    (classify (fun _ _ => none) (fun _ _ => [])
      { sql_submitted := "SELECT 1", execution_success := true,
        phantom_tables := ["ghost"], match_score := some 1 }).category =
      ErrorCategory.NO_ERROR ∧
    (classify (fun _ _ => none) (fun _ _ => [])
      { sql_submitted := "SELECT 1", execution_success := true,
        phantom_tables := ["ghost"], match_score := some 1 }).subcategory =
      ErrorSubcategory.NO_ERROR ∧
    (["ghost"] : List String) ≠ [] := by
  refine ⟨?_, ?_, by simp⟩ <;>
    · rw [classify, if_pos]
      exact ⟨rfl, rfl, 1, rfl, by norm_num⟩

/-- C1 (amended): whenever `phantom_tables` is non-empty AND the success
short-circuit does not fire (i.e. it is not the case that the execution
succeeded with no validation errors and a match score ≥ 0.95), `classify`
returns `schema_error/wrong_table` with confidence 0.95 and evidence equal
to the phantom table list — for every regex oracle and schema-linking
analysis, i.e. regardless of any pattern match elsewhere. -/
theorem classify_phantom_tables_priority
    (patternHit : String → String → Option String)
    (schemaLinking : String → String → List String) (a : ClassifyArgs)
    (hpt : a.phantom_tables ≠ [])
    (hns : ¬ (a.execution_success = true ∧ a.validation_errors = [] ∧
      (∃ m, a.match_score = some m ∧ (0.95 : ℚ) ≤ m))) :
    (classify patternHit schemaLinking a).category =
      ErrorCategory.SCHEMA_ERROR ∧
    (classify patternHit schemaLinking a).subcategory =
      ErrorSubcategory.WRONG_TABLE ∧
    (classify patternHit schemaLinking a).confidence = 0.95 ∧
    (classify patternHit schemaLinking a).evidence = a.phantom_tables := by
  rw [classify, if_neg hns, if_pos hpt]
  exact ⟨rfl, rfl, rfl, rfl⟩

/-- C1 (witness for `classify_phantom_tables_priority`): a failed execution
referencing the phantom table `customerz` is classified
`schema_error/wrong_table` with the phantom list as evidence. -/
theorem classify_phantom_tables_priority_witness :
    (classify (fun _ _ => none) (fun _ _ => [])
      { sql_submitted := "SELECT * FROM customerz",
        execution_success := false,
        phantom_tables := ["customerz"] }).category =
      ErrorCategory.SCHEMA_ERROR ∧
    (classify (fun _ _ => none) (fun _ _ => [])
      { sql_submitted := "SELECT * FROM customerz",
        execution_success := false,
        phantom_tables := ["customerz"] }).evidence = ["customerz"] := by
  have h := classify_phantom_tables_priority (fun _ _ => none)
    (fun _ _ => [])
    { sql_submitted := "SELECT * FROM customerz",
      execution_success := false, phantom_tables := ["customerz"] }
    (by simp) (by simp)
  exact ⟨h.1, h.2.2.2⟩

/-- Helper: every insight deduction is non-negative. -/
theorem insightPenalty_nonneg (s : String) : 0 ≤ insightPenalty s := by
  unfold insightPenalty
  dsimp only
  split_ifs <;> norm_num

/-- Helper: the penalty loop never increases the running score. -/
theorem applyPenalties_le (l : List String) : ∀ s : ℚ, applyPenalties l s ≤ s := by
  induction l with
  | nil => intro s; simp [applyPenalties]
  | cons i rest ih =>
    intro s
    have h1 : applyPenalties (i :: rest) s =
        applyPenalties rest (s - insightPenalty i) := rfl
    have h2 := ih (s - insightPenalty i)
    have h3 := insightPenalty_nonneg i
    rw [h1]
    linarith

/-- Helper: the efficiency curve stays in `[0, 1]`. -/
theorem effCurve_bounds (t : ℚ) : 0 ≤ effCurve t ∧ effCurve t ≤ 1 := by
  unfold effCurve
  split_ifs with h1 h2 h3
  · norm_num
  · constructor <;> linarith
  · constructor <;> linarith
  · constructor
    · exact le_max_left 0 _
    · apply max_le (by norm_num)
      linarith

/-- Helper: the efficiency curve is monotonically non-increasing, also at
the breakpoints. -/
theorem effCurve_antitone {t1 t2 : ℚ} (h : t1 ≤ t2) :
    effCurve t2 ≤ effCurve t1 := by
  unfold effCurve
  split_ifs <;>
    first
      | linarith
      | (apply max_le <;> linarith)
      | (exact max_le_max (le_refl 0) (by linarith))

/-- Helper: validation score bounds. -/
theorem computeValidationScore_bounds (e : ExecutionResultE) :
    0 ≤ computeValidationScore e ∧ computeValidationScore e ≤ 1 := by
  unfold computeValidationScore
  split_ifs with h1 h2 h3
  · constructor
    · exact le_max_left 0 _
    · apply max_le (by norm_num)
      have hw : (0 : ℚ) ≤ (e.validation_warnings.length : ℚ) := by positivity
      linarith
  · norm_num
  · norm_num
  · norm_num

/-- Helper: hallucination score bounds. -/
theorem computeHallucinationScore_bounds (e : ExecutionResultE) :
    0 ≤ computeHallucinationScore e ∧ computeHallucinationScore e ≤ 1 := by
  unfold computeHallucinationScore
  dsimp only
  split_ifs <;> norm_num

/-- Helper: completeness score bounds. -/
theorem computeCompleteness_bounds (e : ExecutionResultE) :
    0 ≤ computeCompleteness e ∧ computeCompleteness e ≤ 1 := by
  unfold computeCompleteness
  have hs1 := applyPenalties_le e.insights 1
  split_ifs with h1 h2
  · norm_num
  · constructor
    · exact le_max_left 0 _
    · exact max_le (by norm_num) (min_le_left 1 _)
  · constructor
    · exact le_max_left 0 _
    · exact max_le (by norm_num) hs1

/-- Helper: safety bounds. -/
theorem computeSafety_bounds (e : ExecutionResultE) :
    0 ≤ computeSafety e ∧ computeSafety e ≤ 1 := by
  have hv := computeValidationScore_bounds e
  have hh := computeHallucinationScore_bounds e
  unfold computeSafety
  constructor <;> linarith [hv.1, hv.2, hh.1, hh.2]

/-- Helper: efficiency bounds (both the failed and the successful case). -/
theorem computeEfficiency_bounds (e : ExecutionResultE) :
    0 ≤ computeEfficiency e ∧ computeEfficiency e ≤ 1 := by
  unfold computeEfficiency
  split_ifs
  · norm_num
  · exact effCurve_bounds e.execution_time_ms

/-- C8: for every `ComparisonResult` (with its documented invariant
`match_score ∈ [0, 1]`) and every `ExecutionResult`, all eight score fields
produced by `DefaultScorer.score` — correctness, efficiency, safety,
result_completeness, validation_score, hallucination_score,
performance_score, and the weighted overall — lie in `[0, 1]`. -/
theorem scorerScore_bounded (c : ComparisonResult) (e : ExecutionResultE)
    (hm0 : 0 ≤ c.match_score) (hm1 : c.match_score ≤ 1) :
    (0 ≤ (scorerScore c e).correctness ∧ (scorerScore c e).correctness ≤ 1) ∧
    (0 ≤ (scorerScore c e).efficiency ∧ (scorerScore c e).efficiency ≤ 1) ∧
    (0 ≤ (scorerScore c e).safety ∧ (scorerScore c e).safety ≤ 1) ∧
    (0 ≤ (scorerScore c e).result_completeness ∧
      (scorerScore c e).result_completeness ≤ 1) ∧
    (0 ≤ (scorerScore c e).validation_score ∧
      (scorerScore c e).validation_score ≤ 1) ∧
    (0 ≤ (scorerScore c e).hallucination_score ∧
      (scorerScore c e).hallucination_score ≤ 1) ∧
    (0 ≤ (scorerScore c e).performance_score ∧
      (scorerScore c e).performance_score ≤ 1) ∧
    (0 ≤ (scorerScore c e).overall ∧ (scorerScore c e).overall ≤ 1) := by
  have hcor : 0 ≤ computeCorrectness c ∧ computeCorrectness c ≤ 1 := by
    unfold computeCorrectness
    split_ifs
    · norm_num
    · exact ⟨hm0, hm1⟩
  have heff := computeEfficiency_bounds e
  have hsaf := computeSafety_bounds e
  have hval := computeValidationScore_bounds e
  have hhall := computeHallucinationScore_bounds e
  have hcomp := computeCompleteness_bounds e
  refine ⟨hcor, heff, hsaf, hcomp, hval, hhall, heff, ?_, ?_⟩
  · show 0 ≤ computeOverall {} _
    unfold computeOverall
    simp only [scorerScore]
    nlinarith [hcor.1, heff.1, hsaf.1, hcomp.1]
  · show computeOverall {} _ ≤ 1
    unfold computeOverall
    simp only [scorerScore]
    nlinarith [hcor.1, hcor.2, heff.1, heff.2, hsaf.1, hsaf.2, hcomp.1,
      hcomp.2]

/-- C8 (witness for `scorerScore_bounded`): the bounds at a concrete
matching comparison and successful execution. -/
theorem scorerScore_bounded_witness :
    0 ≤ (scorerScore { is_match := true, match_score := 1 }
      { success := true }).overall ∧
    (scorerScore { is_match := true, match_score := 1 }
      { success := true }).overall ≤ 1 :=
  (scorerScore_bounded { is_match := true, match_score := 1 }
    { success := true } (by norm_num) (by norm_num)).2.2.2.2.2.2.2

/-- C9: holding every other `ExecutionResult` field fixed, a smaller
`execution_time_ms` yields an efficiency score that is at least as large —
the piecewise map (≤10 → 1.0; (10,100] → 1.0 → 0.8; (100,1000] →
0.8 → 0.5; >1000 → 0.5 − (t−1000)/10000 clamped at 0) is monotonically
non-increasing, including at the breakpoints. -/
theorem computeEfficiency_antitone (e : ExecutionResultE) (t1 t2 : ℚ)
    (h : t1 ≤ t2) :
    computeEfficiency { e with execution_time_ms := t2 } ≤
      computeEfficiency { e with execution_time_ms := t1 } := by
  unfold computeEfficiency
  by_cases hs : e.success = false
  · simp [hs]
  · simp only [hs, if_false]
    exact effCurve_antitone h

/-- C9 (witness for `computeEfficiency_antitone`): 50 ms scores at least as
high as 5000 ms on an otherwise identical successful execution. -/
theorem computeEfficiency_antitone_witness :
    computeEfficiency { success := true, execution_time_ms := 5000 } ≤
      computeEfficiency { success := true, execution_time_ms := 50 } :=
  computeEfficiency_antitone { success := true } 50 5000 (by norm_num)

/-- Helper: value matching is reflexive when the numeric tolerance is
non-negative. -/
theorem valuesMatch_self (cfg : ComparatorConfig)
    (htol : 0 ≤ cfg.numeric_tolerance) (v : Value) :
    valuesMatch cfg v v = true := by
  cases v with
  | null => rfl
  | num q => simp [valuesMatch, htol]
  | nan => rfl
  | str s =>
    unfold valuesMatch
    split_ifs <;> simp
  | other t => simp [valuesMatch]

/-- Helper: row matching is reflexive. -/
theorem rowsMatch_self (cfg : ComparatorConfig)
    (htol : 0 ≤ cfg.numeric_tolerance) (cols : List String) (r : Row) :
    rowsMatch cfg cols r r = true := by
  simp only [rowsMatch, List.all_eq_true]
  intro c _
  exact valuesMatch_self cfg htol _

/-- Helper: `markFirst` skips an all-marked prefix unchanged. -/
theorem markFirst_skips_marked (cfg : ComparatorConfig)
    (cols : List String) (a : Row) (pre l : List (Row × Bool))
    (hpre : ∀ p ∈ pre, p.2 = true) :
    markFirst cfg cols a (pre ++ l) =
      (pre ++ (markFirst cfg cols a l).1, (markFirst cfg cols a l).2) := by
  induction pre with
  | nil => simp
  | cons p rest ih =>
    obtain ⟨e, m⟩ := p
    have hm : m = true := hpre (e, m) (List.mem_cons_self _ _)
    subst hm
    have ih2 := ih fun q hq => hpre q (List.mem_cons_of_mem _ hq)
    simp [markFirst, ih2]

/-- Helper: the greedy assignment of a row list against itself (behind an
already fully marked prefix) matches every row. -/
theorem countGreedy_self (cfg : ComparatorConfig) (cols : List String)
    (htol : 0 ≤ cfg.numeric_tolerance) :
    ∀ (suf : List Row) (pre : List (Row × Bool)),
      (∀ p ∈ pre, p.2 = true) →
      countGreedy cfg cols suf (pre ++ suf.map fun r => (r, false)) =
        suf.length := by
  intro suf
  induction suf with
  | nil => intro pre _; rfl
  | cons a rest ih =>
    intro pre hpre
    have hmf : markFirst cfg cols a
        (pre ++ (a, false) :: (rest.map fun r => (r, false))) =
        (pre ++ (a, true) :: (rest.map fun r => (r, false)), true) := by
      rw [markFirst_skips_marked cfg cols a pre _ hpre]
      simp [markFirst, rowsMatch_self cfg htol cols a]
    have hshape : pre ++ (a, true) :: (rest.map fun r => (r, false)) =
        (pre ++ [(a, true)]) ++ rest.map fun r => (r, false) := by simp
    have hpre2 : ∀ p ∈ pre ++ [(a, true)], p.2 = true := by
      intro p hp
      rcases List.mem_append.mp hp with h | h
      · exact hpre p h
      · simp only [List.mem_singleton] at h
        subst h
        rfl
    simp only [List.map_cons, countGreedy, hmf, if_true]
    rw [hshape, ih (pre ++ [(a, true)]) hpre2]
    simp [Nat.add_comm]

/-- Helper: zipping a list with itself pairs each element with itself. -/
theorem zip_self_eq_map {α : Type} (l : List α) :
    l.zip l = l.map fun r => (r, r) := by
  induction l with
  | nil => rfl
  | cons a rest ih => simp [ih]

/-- Helper: the row-match ratio of a non-empty row list against itself is 1
whenever the common column list is non-empty. -/
theorem compareRows_self (cfg : ComparatorConfig) (cols : List String)
    (htol : 0 ≤ cfg.numeric_tolerance) (X : List Row) (hX : X ≠ [])
    (hcols : cols ≠ []) :
    compareRows cfg cols X X = 1 := by
  have hne : (X.length : ℚ) ≠ 0 := by
    simp [List.length_eq_zero, hX]
  unfold compareRows
  rw [if_neg (by simp [hcols])]
  split_ifs
  · have hg := countGreedy_self cfg cols htol X [] (by intro p hp; cases hp)
    simp only [List.nil_append] at hg
    rw [hg, div_self hne]
  · rw [zip_self_eq_map, List.countP_map]
    have hcount : List.countP
        ((fun p => rowsMatch cfg cols p.1 p.2) ∘ fun r => (r, r)) X =
        X.length := by
      rw [List.countP_eq_length]
      intro r _
      exact rowsMatch_self cfg htol cols r
    rw [hcount, div_self hne]

/-- Helper: `round4` fixes 1. -/
theorem round4_one : round4 1 = 1 := by
  unfold round4
  rw [show (1 : ℚ) * 10000 = ((10000 : ℤ) : ℚ) by norm_num, round_intCast]
  norm_num

/-- Helper: a list contains each of its members. -/
theorem contains_of_mem {l : List String} {c : String} (h : c ∈ l) :
    l.contains c = true :=
  List.elem_eq_true_of_mem h

/-- C6: when exactly one of actual/expected is empty, `compare` returns no
match with score 0 and both count flags false; for non-empty pairs the
score is `round4(0.50·row_ratio + 0.30·column_ratio + 0.10·[row counts
equal] + 0.10·[column counts equal])` and `is_match` holds exactly when the
score is ≥ 0.99, the row and column counts match, and there are no missing
or extra columns between the two first-row key sets. -/
theorem compare_score_spec (cfg : ComparatorConfig) (a e : List Row) :
    ((a = [] ∧ e ≠ []) ∨ (a ≠ [] ∧ e = []) →
      compare cfg a e =
        { is_match := false, match_score := 0,
          row_count_match := false, column_count_match := false }) ∧
    (a ≠ [] → e ≠ [] →
      (compare cfg a e).match_score = round4 (
        0.50 * compareRows cfg (commonColumns a e) a e +
        0.30 * columnMatchRatio a e +
        0.10 * (if a.length = e.length then (1 : ℚ) else 0) +
        0.10 * (if (actualColumns a).length = (expectedColumns e).length
          then (1 : ℚ) else 0)) ∧
      ((compare cfg a e).is_match = true ↔
        ((0.99 : ℚ) ≤ (compare cfg a e).match_score ∧
          a.length = e.length ∧
          (actualColumns a).length = (expectedColumns e).length ∧
          missingColumns a e = [] ∧ extraColumns a e = []))) := by
  constructor
  · rintro (⟨ha, he⟩ | ⟨ha, he⟩)
    · subst ha
      cases e with
      | nil => exact absurd rfl he
      | cons y ys => rfl
    · subst he
      cases a with
      | nil => exact absurd rfl ha
      | cons x xs => rfl
  · intro ha he
    cases a with
    | nil => exact absurd rfl ha
    | cons x xs =>
      cases e with
      | nil => exact absurd rfl he
      | cons y ys =>
        constructor
        · show calculateMatchScore (columnMatchRatio (x :: xs) (y :: ys))
            (compareRows cfg (commonColumns (x :: xs) (y :: ys))
              (x :: xs) (y :: ys))
            ((x :: xs).length == (y :: ys).length)
            ((actualColumns (x :: xs)).length ==
              (expectedColumns (y :: ys)).length) = _
          simp only [calculateMatchScore, beq_iff_eq]
        · show (decide ((0.99 : ℚ) ≤ calculateMatchScore
              (columnMatchRatio (x :: xs) (y :: ys))
              (compareRows cfg (commonColumns (x :: xs) (y :: ys))
                (x :: xs) (y :: ys))
              ((x :: xs).length == (y :: ys).length)
              ((actualColumns (x :: xs)).length ==
                (expectedColumns (y :: ys)).length)) &&
            ((x :: xs).length == (y :: ys).length) &&
            ((actualColumns (x :: xs)).length ==
              (expectedColumns (y :: ys)).length) &&
            (missingColumns (x :: xs) (y :: ys)).isEmpty &&
            (extraColumns (x :: xs) (y :: ys)).isEmpty) = true ↔ _
          simp only [Bool.and_eq_true, decide_eq_true_eq, beq_iff_eq,
            List.isEmpty_iff]
          constructor
          · rintro ⟨⟨⟨⟨h1, h2⟩, h3⟩, h4⟩, h5⟩
            exact ⟨h1, h2, h3, h4, h5⟩
          · rintro ⟨h1, h2, h3, h4, h5⟩
            exact ⟨⟨⟨⟨h1, h2⟩, h3⟩, h4⟩, h5⟩

/-- C6 (witness for `compare_score_spec`): the empty-actual case at a
concrete one-row expected list, and the score formula at concrete singleton
rows. -/
theorem compare_score_spec_witness :
    compare {} [] [[("x", Value.num 1)]] =
      { is_match := false, match_score := 0, row_count_match := false,
        column_count_match := false } ∧
    ((compare {} [[("x", Value.num 1)]] [[("x", Value.num 1)]]).is_match =
        true ↔
      ((0.99 : ℚ) ≤ (compare {} [[("x", Value.num 1)]]
          [[("x", Value.num 1)]]).match_score ∧
        ([[("x", Value.num 1)]] : List Row).length =
          ([[("x", Value.num 1)]] : List Row).length ∧
        (actualColumns [[("x", Value.num 1)]]).length =
          (expectedColumns [[("x", Value.num 1)]]).length ∧
        missingColumns [[("x", Value.num 1)]] [[("x", Value.num 1)]] = [] ∧
        extraColumns [[("x", Value.num 1)]] [[("x", Value.num 1)]] = [])) := by
  constructor
  · exact (compare_score_spec {} [] [[("x", Value.num 1)]]).1
      (Or.inl ⟨rfl, by simp⟩)
  · exact ((compare_score_spec {} [[("x", Value.num 1)]]
      [[("x", Value.num 1)]]).2 (by simp) (by simp)).2

/-- C7 (amended): for every well-formed row list `X` (each row a mapping
with unique keys) that is empty or whose first row has at least one column,
`compare(X, X)` is a perfect match: `is_match = true`, `match_score = 1.0`,
and both count flags true — for any comparator configuration with a
non-negative numeric tolerance, in either row-order mode. -/
theorem compare_self_perfect (cfg : ComparatorConfig) (X : List Row)
    (htol : 0 ≤ cfg.numeric_tolerance)
    (hwf : ∀ r ∈ X, (rowKeys r).Nodup)
    (hcols : X = [] ∨ rowKeys (X.headD []) ≠ []) :
    compare cfg X X =
      { is_match := true, match_score := 1, row_count_match := true,
        column_count_match := true } := by
  rcases hcols with hX | hk
  · subst hX; rfl
  · have hXne : X ≠ [] := by
      intro h
      subst h
      exact hk rfl
    cases X with
    | nil => exact absurd rfl hXne
    | cons r rest =>
      have hkr : rowKeys r ≠ [] := hk
      have hcommon : commonColumns (r :: rest) (r :: rest) = rowKeys r := by
        unfold commonColumns
        exact List.filter_eq_self.mpr fun c hc => contains_of_mem hc
      have hmissing : missingColumns (r :: rest) (r :: rest) = [] := by
        unfold missingColumns
        refine List.filter_eq_nil_iff.mpr fun c hc => ?_
        have hc2 : c ∈ actualColumns (r :: rest) := hc
        simp only [contains_of_mem hc2, Bool.not_true]
        simp
      have hextra : extraColumns (r :: rest) (r :: rest) = [] := by
        unfold extraColumns
        refine List.filter_eq_nil_iff.mpr fun c hc => ?_
        have hc2 : c ∈ expectedColumns (r :: rest) := hc
        simp only [contains_of_mem hc2, Bool.not_true]
        simp
      have hklen : ((rowKeys r).length : ℚ) ≠ 0 := by
        simp [List.length_eq_zero, hkr]
      have hie : (expectedColumns (r :: rest)).isEmpty = false := by
        rw [Bool.eq_false_iff]
        intro hcontra
        exact hkr (List.isEmpty_iff.mp hcontra)
      have hcc : (actualColumns (r :: rest)).length =
          (expectedColumns (r :: rest)).length := rfl
      have hcmr : columnMatchRatio (r :: rest) (r :: rest) = 1 := by
        unfold columnMatchRatio
        rw [if_pos hie]
        show ((commonColumns (r :: rest) (r :: rest)).length : ℚ) /
          ((rowKeys r).length : ℚ) = 1
        rw [hcommon, div_self hklen]
      have hrows : compareRows cfg (commonColumns (r :: rest) (r :: rest))
          (r :: rest) (r :: rest) = 1 := by
        rw [hcommon]
        exact compareRows_self cfg (rowKeys r) htol (r :: rest)
          (by simp) hkr
      have hscore : calculateMatchScore
          (columnMatchRatio (r :: rest) (r :: rest))
          (compareRows cfg (commonColumns (r :: rest) (r :: rest))
            (r :: rest) (r :: rest))
          ((r :: rest).length == (r :: rest).length)
          ((actualColumns (r :: rest)).length ==
            (expectedColumns (r :: rest)).length) = 1 := by
        rw [hcmr, hrows]
        unfold calculateMatchScore
        rw [show (0.50 * (1 : ℚ) + 0.30 * 1 +
          0.10 * (if (((r :: rest).length == (r :: rest).length) : Bool)
            then (1 : ℚ) else 0) +
          0.10 * (if (((actualColumns (r :: rest)).length ==
              (expectedColumns (r :: rest)).length) : Bool)
            then (1 : ℚ) else 0)) = 1 by simp [hcc]; norm_num]
        exact round4_one
      show ComparisonResult.mk _ _ _ _ = _
      rw [ComparisonResult.mk.injEq]
      refine ⟨?_, hscore, by simp, by simp [hcc]⟩
      rw [hscore, hmissing, hextra]
      simp [hcc]
      norm_num

/-- C7 (counterexample): a single-row list whose row has no columns is NOT
matched against itself — the common column set is empty, so the row-match
ratio collapses to 0 and the score is 0.5, not 1.0; `is_match` is false. -/
theorem compare_self_empty_row_fails :
    (compare {} [([] : Row)] [([] : Row)]).is_match = false ∧
    (compare {} [([] : Row)] [([] : Row)]).match_score = 1 / 2 := by
  have hcms : calculateMatchScore 1 0 true true = 1 / 2 := by
    unfold calculateMatchScore round4
    rw [show (0.50 * (0 : ℚ) + 0.30 * 1 +
      0.10 * (if (true : Bool) then (1 : ℚ) else 0) +
      0.10 * (if (true : Bool) then (1 : ℚ) else 0)) * 10000 =
      ((5000 : ℤ) : ℚ) by norm_num]
    rw [round_intCast]
    norm_num
  constructor
  · show (decide ((0.99 : ℚ) ≤ calculateMatchScore 1 0 true true) &&
      true && true && true && true) = false
    rw [hcms]
    have : ¬ ((0.99 : ℚ) ≤ 1 / 2) := by norm_num
    simp [this]
    norm_num
  · show calculateMatchScore 1 0 true true = 1 / 2
    exact hcms

/-- C7 (witness for `compare_self_perfect`): a concrete one-row, one-column
list compared with itself is a perfect match under the default
configuration. -/
theorem compare_self_perfect_witness :
    compare {} [[("x", Value.num 1)]] [[("x", Value.num 1)]] =
      { is_match := true, match_score := 1, row_count_match := true,
        column_count_match := true } :=
  compare_self_perfect {} [[("x", Value.num 1)]] (by norm_num)
    (by intro r hr; simp at hr; subst hr; simp [rowKeys])
    (Or.inr (by simp [rowKeys]))

/-- Helper: `addRanks` keeps the participant ids, in order. -/
theorem addRanks_map_pid (l : List (String × ParticipantSummaryC)) :
    ∀ n, (addRanks n l).map (fun rp => rp.participant_id) = l.map Prod.fst := by
  induction l with
  | nil => intro n; rfl
  | cons p rest ih =>
    intro n
    simp [addRanks, ih]

/-- Helper: `addRanks n` assigns the ranks `n, n+1, ...` positionally. -/
theorem addRanks_map_rank (l : List (String × ParticipantSummaryC)) :
    ∀ n, (addRanks n l).map (fun rp => rp.rank) = List.range' n l.length := by
  induction l with
  | nil => intro n; rfl
  | cons p rest ih =>
    intro n
    simp only [addRanks, List.map_cons, ih, List.length_cons]
    rfl

/-- Helper: `addRanks` keeps the overall scores, in order. -/
theorem addRanks_map_overall (l : List (String × ParticipantSummaryC)) :
    ∀ n, (addRanks n l).map (fun rp => rp.overall_score) =
      l.map fun p => p.2.scores.overall := by
  induction l with
  | nil => intro n; rfl
  | cons p rest ih =>
    intro n
    simp [addRanks, ih]

/-- Helper: the stable-sort comparator is transitive. -/
theorem rankLE_trans (a b c : String × ParticipantSummaryC)
    (h1 : rankLE a b = true) (h2 : rankLE b c = true) : rankLE a c = true := by
  simp only [rankLE, decide_eq_true_eq] at h1 h2 ⊢
  exact le_trans h2 h1

/-- Helper: the stable-sort comparator is total. -/
theorem rankLE_total (a b : String × ParticipantSummaryC) :
    (rankLE a b || rankLE b a) = true := by
  simp only [rankLE, Bool.or_eq_true, decide_eq_true_eq]
  exact le_total _ _

/-- Helper: a participant summary's scores are the averaged scores of its
task results (the empty case agrees because both sides are all-zero). -/
theorem buildParticipantSummary_scores (pid ep : String)
    (trs : List TaskResultC) :
    (buildParticipantSummary pid ep trs).scores = averageScores trs := by
  unfold buildParticipantSummary averageScores
  split_ifs <;> rfl

/-- Helper: a two-element list is pairwise-related when its two elements
are. -/
theorem pairwise_pair {α : Type} {R : α → α → Prop} {a b : α} (h : R a b) :
    List.Pairwise R [a, b] := by
  refine List.Pairwise.cons ?_ (List.pairwise_singleton R b)
  intro c hc
  simp only [List.mem_singleton] at hc
  subst hc
  exact h

/-- C2 (counterexample): two participants tied on overall score, inserted
as "b" before "a" in the results map, are ranked ["b", "a"] — Python's
stable sort keys only on the overall score and never compares ids, so the
lexicographically smaller id "a" does NOT receive the smaller rank. -/
theorem rankings_ties_not_lexicographic :
    ((artifactBuild "a1" "now" [("b", "hb"), ("a", "ha")]
        tieResults).rankings.map fun rp => rp.participant_id) = ["b", "a"] := by
  have hsorted : (tieResults.map fun pr =>
      (pr.1, buildParticipantSummary pr.1
        (endpointOf [("b", "hb"), ("a", "ha")] pr.1) pr.2)).Pairwise
      (fun a b => rankLE a b = true) :=
    pairwise_pair (by simp [rankLE, buildParticipantSummary_scores])
  show ((addRanks 1 ((tieResults.map fun pr =>
      (pr.1, buildParticipantSummary pr.1
        (endpointOf [("b", "hb"), ("a", "ha")] pr.1) pr.2)).mergeSort
        rankLE)).map fun rp => rp.participant_id) = ["b", "a"]
  rw [List.mergeSort_of_sorted hsorted, addRanks_map_pid]
  rfl

/-- C2 (amended): for every non-empty results map with unique participant
ids, the rankings of `ArtifactBuilder.build` enumerate every participant
exactly once with ranks 1..n, in non-increasing order of averaged overall
score; ties are resolved by the insertion order of the results map (stable
sort) — a participant listed earlier keeps the smaller rank — not by
lexicographic id order. -/
theorem artifactBuild_rankings_spec (aid ts : String)
    (participants : List (String × String))
    (results : List (String × List TaskResultC))
    (_hne : results ≠ []) (_hkeys : (results.map Prod.fst).Nodup) :
    ((artifactBuild aid ts participants results).rankings.map
        fun rp => rp.participant_id).Perm (results.map Prod.fst) ∧
    ((artifactBuild aid ts participants results).rankings.map
        fun rp => rp.rank) = List.range' 1 results.length ∧
    ((artifactBuild aid ts participants results).rankings.map
        fun rp => rp.overall_score).Pairwise (fun x y => y ≤ x) ∧
    (∀ x y : String × List TaskResultC, [x, y].Sublist results →
      (averageScores x.2).overall = (averageScores y.2).overall →
      [x.1, y.1].Sublist
        ((artifactBuild aid ts participants results).rankings.map
          fun rp => rp.participant_id)) := by
  have hr : (artifactBuild aid ts participants results).rankings =
      addRanks 1 ((results.map fun pr => (pr.1, buildParticipantSummary pr.1
        (endpointOf participants pr.1) pr.2)).mergeSort rankLE) := rfl
  have hcomp : (Prod.fst ∘ fun pr : String × List TaskResultC =>
      (pr.1, buildParticipantSummary pr.1
        (endpointOf participants pr.1) pr.2)) = Prod.fst := rfl
  refine ⟨?_, ?_, ?_, ?_⟩
  · rw [hr, addRanks_map_pid]
    have hp := (List.mergeSort_perm (results.map fun pr =>
      (pr.1, buildParticipantSummary pr.1
        (endpointOf participants pr.1) pr.2)) rankLE).map Prod.fst
    rw [List.map_map, hcomp] at hp
    exact hp
  · rw [hr, addRanks_map_rank, List.length_mergeSort, List.length_map]
  · rw [hr, addRanks_map_overall]
    have hs := List.sorted_mergeSort rankLE_trans rankLE_total
      (results.map fun pr => (pr.1, buildParticipantSummary pr.1
        (endpointOf participants pr.1) pr.2))
    refine List.pairwise_map.mpr (hs.imp ?_)
    intro a b h
    simpa [rankLE] using h
  · intro x y hsub heq
    have hsubf : [(x.1, buildParticipantSummary x.1
        (endpointOf participants x.1) x.2),
        (y.1, buildParticipantSummary y.1
          (endpointOf participants y.1) y.2)].Sublist
        (results.map fun pr => (pr.1, buildParticipantSummary pr.1
          (endpointOf participants pr.1) pr.2)) := by
      have := hsub.map fun pr : String × List TaskResultC =>
        (pr.1, buildParticipantSummary pr.1
          (endpointOf participants pr.1) pr.2)
      simpa using this
    have hpair : List.Pairwise (fun a b => rankLE a b = true)
        [(x.1, buildParticipantSummary x.1
          (endpointOf participants x.1) x.2),
         (y.1, buildParticipantSummary y.1
           (endpointOf participants y.1) y.2)] := by
      refine pairwise_pair ?_
      simp only [rankLE, buildParticipantSummary_scores,
        decide_eq_true_eq]
      exact le_of_eq heq.symm
    have hsorted2 := List.sublist_mergeSort rankLE_trans rankLE_total
      hpair hsubf
    have hfinal := hsorted2.map Prod.fst
    rw [hr, addRanks_map_pid]
    simpa using hfinal

/-- C2 (witness for `artifactBuild_rankings_spec`): the rank list of the
two-participant tie fixture is `[1, 2]`. -/
theorem artifactBuild_rankings_spec_witness :
    ((artifactBuild "a1" "now" [("b", "hb"), ("a", "ha")]
        tieResults).rankings.map fun rp => rp.rank) =
      List.range' 1 tieResults.length :=
  (artifactBuild_rankings_spec "a1" "now" [("b", "hb"), ("a", "ha")]
    tieResults (by simp [tieResults]) (by simp [tieResults])).2.1

/-- C4 (code evaluation): invoking `handle_assessment` with an EMPTY
participant set and a catalog containing one matching task emits
`submitted` and two `working` updates, then dies with an uncaught
`IndexError` while formatting the `completed` message from
`artifact.rankings[0]` (the rankings are empty): no terminal `failed` (or
`completed`) update is ever emitted, no update carries an artifact, and the
stream is closed by an exception instead of the terminal `failed` update
that the configuration-error contract requires. -/
theorem handleAssessment_empty_participants_crashes :
    (handleAssessment (fun _ t => zeroTaskResult t none)
        (fun _ _ => { sql := "SELECT 1" }) "a1" "now" []
        [{ id := "t1", question := "q", difficulty := "easy" }]
        {}).isCrashed = true ∧
    ((handleAssessment (fun _ t => zeroTaskResult t none)
        (fun _ _ => { sql := "SELECT 1" }) "a1" "now" []
        [{ id := "t1", question := "q", difficulty := "easy" }]
        {}).updates.map fun u => u.status) =
      ["submitted", "working", "working"] ∧
    ((handleAssessment (fun _ t => zeroTaskResult t none)
        (fun _ _ => { sql := "SELECT 1" }) "a1" "now" []
        [{ id := "t1", question := "q", difficulty := "easy" }]
        {}).updates.countP fun u => u.hasArtifact) = 0 := by
  have hrank : buildRankings [] = [] := by
    simp [buildRankings, List.mergeSort_nil, addRanks]
  refine ⟨?_, ?_, ?_⟩ <;>
    simp [handleAssessment, filterTasks, filterTasksGo, processTasks,
      processResponses, artifactBuild, buildTaskComparison, endpointOf,
      hrank, AssessmentOutcome.isCrashed, AssessmentOutcome.updates]
